import Mathlib

/-!
Verification development for the ccsds_tmtc_py data-link / channel-coding
stack.  Byte buffers are modelled as `List Nat` (each element one octet),
Python exceptions as explicit `Except` results, and in-place mutation as
functions returning the updated buffer or builder state.  Every definition
is translated from the corresponding Python source in
`src/ccsds_tmtc_py/...`; places where the Python source raises an
unconditional `AttributeError` (mis-named attribute reads, assignments to
properties that have no setter) are modelled explicitly, and a
`..._repaired` variant carries the field arithmetic the constructor was
evidently meant to perform (single-token repairs, documented at each
definition).
-/

namespace CcsdsTmtc

/-- Python exception outcomes relevant to the embedded code paths. -/
inductive PyError where
  | valueError (msg : String)
  | attributeError (name : String)
  | illegalState (msg : String)
deriving DecidableEq, Repr

instance {ε α : Type} [DecidableEq ε] [DecidableEq α] : DecidableEq (Except ε α) := fun
  | .error e₁, .error e₂ =>
    if h : e₁ = e₂ then .isTrue (h ▸ rfl) else .isFalse (fun hc => h (Except.error.inj hc))
  | .error _, .ok _ => .isFalse (fun hc => Except.noConfusion hc)
  | .ok _, .error _ => .isFalse (fun hc => Except.noConfusion hc)
  | .ok a₁, .ok a₂ =>
    if h : a₁ = a₂ then .isTrue (h ▸ rfl) else .isFalse (fun hc => h (Except.ok.inj hc))

/-! ## RandomizerAlgorithm (src/ccsds_tmtc_py/algorithm/randomizer_algorithm.py)

The source uses a precomputed placeholder sequence
`_PRECOMPUTED_RANDOM_SEQ = bytes([(i * 17 + (i // 3) * 5) % 256 for i in range(256)])`
and `_get_random_byte(seq_val) = _PRECOMPUTED_RANDOM_SEQ[seq_val % 256]`.
Both randomizers walk the buffer with a chained state initialised to 0xFF:
`random_byte = _get_random_byte(state); data[i] ^= random_byte; state = random_byte`.
-/

namespace RandomizerAlgorithm

/-- Entry `i % 256` of the placeholder table `_PRECOMPUTED_RANDOM_SEQ`
(the table holds `(j * 17 + (j // 3) * 5) % 256` at index `j < 256`). -/
def precomputed_random_seq (i : Nat) : Nat :=
  (i % 256 * 17 + i % 256 / 3 * 5) % 256

/-- `RandomizerAlgorithm._get_random_byte` (table lookup at `seq_val % 256`). -/
def get_random_byte (seq_val : Nat) : Nat :=
  precomputed_random_seq (seq_val % 256)

/-- Loop of `randomize_frame_tm`: walks the whole buffer, XORing each byte
with the chained keystream byte. -/
def randomize_frame_tm_aux (state : Nat) : List Nat → List Nat
  | [] => []
  | b :: rest =>
    let r := get_random_byte state
    (b ^^^ r) :: randomize_frame_tm_aux r rest

/-- `RandomizerAlgorithm.randomize_frame_tm` (initial state 0xFF, whole buffer). -/
def randomize_frame_tm (data : List Nat) : List Nat :=
  randomize_frame_tm_aux 0xFF data

/-- Loop of `randomize_cltu`: Python iterates
`for i in range(start_octet, min(len(data), stop_octet_exclusive))`, XORing
`data[i]` with the chained keystream byte.  The walk below carries the
current index `i`; the keystream state advances exactly on the processed
(contiguous) window, which matches the Python loop for non-negative
`start_octet` (every caller passes 0 or a positive block offset). -/
def randomize_cltu_aux (state : Nat) (i : Nat) (start stop : Int) : List Nat → List Nat
  | [] => []
  | b :: rest =>
    if start ≤ (i : Int) ∧ (i : Int) < stop then
      let r := get_random_byte state
      (b ^^^ r) :: randomize_cltu_aux r (i + 1) start stop rest
    else
      b :: randomize_cltu_aux state (i + 1) start stop rest

/-- `RandomizerAlgorithm.randomize_cltu` (initial state 0xFF, window `[start, stop)`). -/
def randomize_cltu (data : List Nat) (start stop : Int) : List Nat :=
  randomize_cltu_aux 0xFF 0 start stop data

theorem randomize_frame_tm_aux_involution (state : Nat) (l : List Nat) :
    randomize_frame_tm_aux state (randomize_frame_tm_aux state l) = l := by
  induction l generalizing state with
  | nil => rfl
  | cons b rest ih =>
    simp only [randomize_frame_tm_aux]
    rw [Nat.xor_assoc, Nat.xor_self, Nat.xor_zero]
    exact congrArg _ (ih _)

theorem randomize_cltu_aux_involution (state i : Nat) (start stop : Int) (l : List Nat) :
    randomize_cltu_aux state i start stop (randomize_cltu_aux state i start stop l) = l := by
  induction l generalizing state i with
  | nil => rfl
  | cons b rest ih =>
    by_cases h : start ≤ (i : Int) ∧ (i : Int) < stop
    · simp only [randomize_cltu_aux, if_pos h]
      rw [Nat.xor_assoc, Nat.xor_self, Nat.xor_zero]
      exact congrArg _ (ih _ _)
    · simp only [randomize_cltu_aux, if_neg h]
      exact congrArg _ (ih _ _)

theorem randomize_cltu_aux_length (state i : Nat) (start stop : Int) (l : List Nat) :
    (randomize_cltu_aux state i start stop l).length = l.length := by
  induction l generalizing state i with
  | nil => rfl
  | cons b rest ih =>
    by_cases h : start ≤ (i : Int) ∧ (i : Int) < stop
    · simp only [randomize_cltu_aux, if_pos h, List.length_cons, ih]
    · simp only [randomize_cltu_aux, if_neg h, List.length_cons, ih]

theorem randomize_cltu_aux_get?_outside (state i : Nat) (start stop : Int) (l : List Nat)
    (j : Nat) (hj : ¬ (start ≤ ((i + j : Nat) : Int) ∧ ((i + j : Nat) : Int) < stop)) :
    (randomize_cltu_aux state i start stop l).get? j = l.get? j := by
  induction l generalizing state i j with
  | nil => rfl
  | cons b rest ih =>
    cases j with
    | zero =>
      have h : ¬ (start ≤ (i : Int) ∧ (i : Int) < stop) := by simpa using hj
      simp only [randomize_cltu_aux, if_neg h, List.get?]
    | succ j =>
      have hj' : ¬ (start ≤ ((i + 1 + j : Nat) : Int) ∧ ((i + 1 + j : Nat) : Int) < stop) := by
        intro hc
        apply hj
        have he : i + (j + 1) = i + 1 + j := by omega
        rw [he]
        exact hc
      by_cases h : start ≤ (i : Int) ∧ (i : Int) < stop
      · simp only [randomize_cltu_aux, if_pos h, List.get?]
        exact ih _ _ _ hj'
      · simp only [randomize_cltu_aux, if_neg h, List.get?]
        exact ih _ _ _ hj'

end RandomizerAlgorithm

/-- C8: applying the randomizer twice with the same seed and the same
sub-range restores the original byte string, both for TM-frame
randomization (whole buffer) and for CLTU randomization over any
caller-specified sub-range `[start, stop)` with non-negative start. -/
theorem randomizer_double_application_restores (x : List Nat) (start : Nat) (stop : Int) :
    RandomizerAlgorithm.randomize_frame_tm (RandomizerAlgorithm.randomize_frame_tm x) = x ∧
    RandomizerAlgorithm.randomize_cltu
      (RandomizerAlgorithm.randomize_cltu x (start : Int) stop) (start : Int) stop = x :=
  ⟨RandomizerAlgorithm.randomize_frame_tm_aux_involution 0xFF x,
   RandomizerAlgorithm.randomize_cltu_aux_involution 0xFF 0 (start : Int) stop x⟩

/-- C10: `randomize_cltu` keeps the buffer length unchanged and leaves every
byte outside the window `[start, min(len(data), stop))` at its prior value;
`stop` values past the end of the buffer are tolerated rather than an error. -/
theorem randomize_cltu_frame_effect (data : List Nat) (start : Nat) (stop : Int) :
    (RandomizerAlgorithm.randomize_cltu data (start : Int) stop).length = data.length ∧
    ∀ i : Nat, ((i : Int) < (start : Int) ∨ min ((data.length : Int)) stop ≤ (i : Int)) →
      (RandomizerAlgorithm.randomize_cltu data (start : Int) stop).get? i = data.get? i := by
  refine ⟨RandomizerAlgorithm.randomize_cltu_aux_length 0xFF 0 _ _ data, fun i hi => ?_⟩
  by_cases hlen : i < data.length
  · refine RandomizerAlgorithm.randomize_cltu_aux_get?_outside 0xFF 0 _ _ data i ?_
    intro hc
    simp only [Nat.zero_add] at hc
    rcases hi with hlt | hge
    · exact absurd hc.1 (not_le.mpr hlt)
    · have : (i : Int) < min ((data.length : Int)) stop :=
        lt_min (by exact_mod_cast hlen) hc.2
      exact absurd hge (not_le.mpr this)
  · have h1 : (RandomizerAlgorithm.randomize_cltu data (start : Int) stop).get? i = none := by
      rw [List.get?_eq_none, RandomizerAlgorithm.randomize_cltu,
        RandomizerAlgorithm.randomize_cltu_aux_length]
      omega
    have h2 : data.get? i = none := by
      rw [List.get?_eq_none]
      omega
    rw [h1, h2]

/-- Witness for C10 at a concrete input: buffer `[1, 2, 3, 4]`, window
`[1, 3)`; the length is preserved and the byte at index 0 keeps its value. -/
theorem randomize_cltu_frame_effect_witness :
    (RandomizerAlgorithm.randomize_cltu [1, 2, 3, 4] ((1 : Nat) : Int) 3).length = 4 ∧
    (RandomizerAlgorithm.randomize_cltu [1, 2, 3, 4] ((1 : Nat) : Int) 3).get? 0 = some 1 := by
  have h := randomize_cltu_frame_effect [1, 2, 3, 4] 1 3
  refine ⟨h.1, ?_⟩
  have h0 := h.2 0 (by decide)
  rw [h0]
  rfl

/-! ## BchCltuAlgorithm (src/ccsds_tmtc_py/algorithm/bch_cltu_algorithm.py)

The source implements the "pseudo-BCH" CLTU block code as a placeholder:
the checksum byte is `sum(data_block) & 0xFF`, not the CCSDS 231.0-B-3
polynomial parity. -/

namespace BchCltuAlgorithm

/-- `BchCltuAlgorithm.encode_cltu_block`: rejects inputs that are not 7
bytes, otherwise appends the placeholder checksum `sum mod 256`. -/
def encode_cltu_block (data_block : List Nat) : Except PyError (List Nat) :=
  if data_block.length ≠ 7 then
    .error (.valueError "CLTU data block for pseudo-BCH encoding must be 7 bytes")
  else
    .ok (data_block ++ [data_block.sum % 256])

/-- `BchCltuAlgorithm.decode_cltu_block`: rejects inputs that are not 8
bytes, recomputes the placeholder checksum over the first 7 bytes and
compares it with the received 8th byte. -/
def decode_cltu_block (coded_block : List Nat) : Except PyError (List Nat) :=
  if coded_block.length ≠ 8 then
    .error (.valueError "CLTU coded block for pseudo-BCH decoding must be 8 bytes")
  else
    let data_part := coded_block.take 7
    let received_checksum := coded_block.getD 7 0
    if received_checksum ≠ data_part.sum % 256 then
      .error (.valueError "CLTU block checksum error (placeholder check)")
    else
      .ok data_part

end BchCltuAlgorithm

/-! ## CltuEncoder (src/ccsds_tmtc_py/coding/encoder/cltu_encoder.py) -/

namespace CltuEncoder

def start_sequence : List Nat := [0xEB, 0x90]

def stop_sequence : List Nat := [0xC5, 0xC5, 0xC5, 0xC5, 0xC5, 0xC5, 0xC5, 0xC5]

def filler_byte : Nat := 0x55

/-- Padding of the last data segment with `FILLER_BYTE` up to 7 bytes
(the encoder's `while len(block_padded_list) < 7: append(FILLER_BYTE)`). -/
def pad_block (segment : List Nat) : List Nat :=
  segment ++ List.replicate (7 - segment.length) filler_byte

/-- Local `block_to_bch` of the encoder loop: the padded segment,
randomized in place over `[0, 7)` when the encoder is configured to
randomize. -/
def block_to_bch (randomize : Bool) (segment : List Nat) : List Nat :=
  if randomize then RandomizerAlgorithm.randomize_cltu (pad_block segment) 0 7
  else pad_block segment

/-- One coded block of the encoder loop: pad the 7-byte segment, randomize
it when configured, then BCH-encode it.
`BchCltuAlgorithm.encode_cltu_block`'s length precondition always holds
here because `pad_block` returns exactly 7 bytes, so its checksum append
is inlined. -/
def coded_block (randomize : Bool) (segment : List Nat) : List Nat :=
  block_to_bch randomize segment ++ [(block_to_bch randomize segment).sum % 256]

/-- Encoder block loop: iteration `i` of `range(num_blocks)` processes the
segment `current_data[i*7 : i*7+7]`, i.e. successive `take 7` / `drop 7`
steps; the fuel argument is `num_blocks = (len(current_data) + 6) // 7`. -/
def blocks_loop (randomize : Bool) (current_data : List Nat) : Nat → List Nat
  | 0 => []
  | k + 1 =>
    coded_block randomize (current_data.take 7) ++
      blocks_loop randomize (current_data.drop 7) k

/-- `CltuEncoder.apply` (the `original_frame` argument is unused by the
source): start sequence, the BCH-coded blocks, stop sequence. -/
def apply (randomize : Bool) (current_data : List Nat) : List Nat :=
  start_sequence ++
    blocks_loop randomize current_data ((current_data.length + 6) / 7) ++
    stop_sequence

end CltuEncoder

/-! ## CltuDecoder (src/ccsds_tmtc_py/coding/decoder/cltu_decoder.py) -/

namespace CltuDecoder

def start_sequence : List Nat := [0xEB, 0x90]

def stop_sequence : List Nat := [0xC5, 0xC5, 0xC5, 0xC5, 0xC5, 0xC5, 0xC5, 0xC5]

def filler_byte : Nat := 0x55

/-- Walk for Python `bytes.index(pat)`: smallest position where `pat`
occurs as a contiguous subsequence, `none` when absent. -/
def find_aux (pat : List Nat) (p : Nat) : List Nat → Option Nat
  | [] => if ([] : List Nat).take pat.length = pat then some p else none
  | x :: rest =>
    if (x :: rest).take pat.length = pat then some p else find_aux pat (p + 1) rest

/-- Python `bytes.index(pat)` as an `Option`. -/
def find_seq (pat l : List Nat) : Option Nat :=
  find_aux pat 0 l

/-- Scan for Python `bytes.rindex(pat)`: positions tried from high to low,
so the result is the largest matching position `≤` the fuel. -/
def rfind_aux (pat l : List Nat) : Nat → Option Nat
  | 0 => if (l.drop 0).take pat.length = pat then some 0 else none
  | p + 1 =>
    if (l.drop (p + 1)).take pat.length = pat then some (p + 1) else rfind_aux pat l p

/-- Python `bytes.rindex(pat)` as an `Option` (largest occurrence). -/
def rfind_seq (pat l : List Nat) : Option Nat :=
  rfind_aux pat l l.length

/-- Python `bytes.rstrip(bytes([FILLER_BYTE]))`: removes all trailing
filler bytes. -/
def rstrip_filler (l : List Nat) : List Nat :=
  (l.reverse.dropWhile (fun x => x == filler_byte)).reverse

/-- Decoder block loop: iteration `i` of `range(len(coded)//8)` takes the
slice `coded[i*8:(i+1)*8]`, BCH-decodes it (propagating its checksum
errors) and then derandomizes the 7 decoded bytes when configured; the
decoded parts are concatenated in order.  The fuel argument is
`len(coded) // 8`. -/
def blocks_loop (randomize : Bool) (coded : List Nat) : Nat → Except PyError (List Nat)
  | 0 => .ok []
  | k + 1 =>
    match BchCltuAlgorithm.decode_cltu_block (coded.take 8) with
    | .error e => .error e
    | .ok bch_decoded =>
      let derandomized :=
        if randomize then RandomizerAlgorithm.randomize_cltu bch_decoded 0 7
        else bch_decoded
      match blocks_loop randomize (coded.drop 8) k with
      | .error e => .error e
      | .ok rest => .ok (derandomized ++ rest)

/-- `CltuDecoder.apply`: locate the first start-sequence occurrence and the
last stop-sequence occurrence after it, require the span in between to be
a whole number of 8-byte codeblocks, decode the blocks, and right-strip
trailing filler bytes. -/
def apply (randomize : Bool) (data : List Nat) : Except PyError (List Nat) :=
  match find_seq start_sequence data with
  | none => .error (.valueError "CLTU Start Sequence (EB90) not found")
  | some start_seq_idx =>
    let data_after_start := data.drop (start_seq_idx + start_sequence.length)
    match rfind_seq stop_sequence data_after_start with
    | none => .error (.valueError "CLTU Stop Sequence (C5 x8) not found")
    | some stop_seq_idx =>
      let coded_data_stream := data_after_start.take stop_seq_idx
      if coded_data_stream.length % 8 ≠ 0 then
        .error (.valueError "CLTU coded data stream length is not a multiple of 8 bytes")
      else
        match blocks_loop randomize coded_data_stream (coded_data_stream.length / 8) with
        | .error e => .error e
        | .ok parts => .ok (rstrip_filler parts)

end CltuDecoder

/-- C4 (code evaluated at the failing input): non-randomized CLTU encoding
of the 7-byte payload `41041041041040` frames the data between `EB90` and
eight `C5` bytes, but the placeholder BCH checksum is `0xEA`
(`sum mod 256`), not the `0xF6` required by the claim (and by the
encoder's own inline assertions). -/
theorem cltu_encode_bch_placeholder_checksum :
    CltuEncoder.apply false [0x41, 0x04, 0x10, 0x41, 0x04, 0x10, 0x40] =
      [0xEB, 0x90, 0x41, 0x04, 0x10, 0x41, 0x04, 0x10, 0x40, 0xEA,
       0xC5, 0xC5, 0xC5, 0xC5, 0xC5, 0xC5, 0xC5, 0xC5] ∧
    CltuEncoder.apply false [0x41, 0x04, 0x10, 0x41, 0x04, 0x10, 0x40] ≠
      [0xEB, 0x90, 0x41, 0x04, 0x10, 0x41, 0x04, 0x10, 0x40, 0xF6,
       0xC5, 0xC5, 0xC5, 0xC5, 0xC5, 0xC5, 0xC5, 0xC5] := by
  constructor <;> decide

/-! Round-trip analysis of the CLTU encode / decode pair. -/

theorem pad_block_length (segment : List Nat) (h : segment.length ≤ 7) :
    (CltuEncoder.pad_block segment).length = 7 := by
  simp only [CltuEncoder.pad_block, List.length_append, List.length_replicate]
  omega

theorem block_to_bch_length (r : Bool) (segment : List Nat) (h : segment.length ≤ 7) :
    (CltuEncoder.block_to_bch r segment).length = 7 := by
  cases r with
  | false => simpa [CltuEncoder.block_to_bch] using pad_block_length segment h
  | true =>
    simp only [CltuEncoder.block_to_bch, if_pos, RandomizerAlgorithm.randomize_cltu,
      RandomizerAlgorithm.randomize_cltu_aux_length]
    exact pad_block_length segment h

theorem coded_block_length (r : Bool) (segment : List Nat) (h : segment.length ≤ 7) :
    (CltuEncoder.coded_block r segment).length = 8 := by
  simp only [CltuEncoder.coded_block, List.length_append, List.length_cons,
    List.length_nil, block_to_bch_length r segment h]

theorem decode_coded_block (r : Bool) (segment : List Nat) (h : segment.length ≤ 7) :
    BchCltuAlgorithm.decode_cltu_block (CltuEncoder.coded_block r segment) =
      .ok (CltuEncoder.block_to_bch r segment) := by
  have h7 := block_to_bch_length r segment h
  have h8 := coded_block_length r segment h
  have htake : (CltuEncoder.coded_block r segment).take 7 = CltuEncoder.block_to_bch r segment := by
    rw [CltuEncoder.coded_block, ← h7, List.take_left]
  have hget : (CltuEncoder.coded_block r segment).getD 7 0 =
      (CltuEncoder.block_to_bch r segment).sum % 256 := by
    rw [CltuEncoder.coded_block]
    rw [List.getD_eq_getElem?_getD, List.getElem?_append_right (by omega), h7]
    rfl
  rw [BchCltuAlgorithm.decode_cltu_block]
  rw [if_neg (by rw [h8]; exact fun hc => hc rfl)]
  dsimp only
  rw [htake, hget, if_neg (fun hc => hc rfl)]

theorem derandomized_block (r : Bool) (segment : List Nat) :
    (if r then RandomizerAlgorithm.randomize_cltu (CltuEncoder.block_to_bch r segment) 0 7
     else CltuEncoder.block_to_bch r segment) = CltuEncoder.pad_block segment := by
  cases r with
  | false => rfl
  | true =>
    simp only [CltuEncoder.block_to_bch, if_pos, RandomizerAlgorithm.randomize_cltu]
    exact RandomizerAlgorithm.randomize_cltu_aux_involution 0xFF 0 0 7 _

theorem encoder_blocks_length (r : Bool) (k : Nat) :
    ∀ data : List Nat, (CltuEncoder.blocks_loop r data k).length = 8 * k := by
  induction k with
  | zero => intro data; rfl
  | succ k ih =>
    intro data
    have hseg : (data.take 7).length ≤ 7 := by
      simp only [List.length_take]
      omega
    simp only [CltuEncoder.blocks_loop, List.length_append, ih,
      coded_block_length r _ hseg]
    ring

theorem decode_encode_blocks (r : Bool) (k : Nat) :
    ∀ data : List Nat, data.length ≤ 7 * k →
      CltuDecoder.blocks_loop r (CltuEncoder.blocks_loop r data k) k =
        .ok (data ++ List.replicate (7 * k - data.length) CltuEncoder.filler_byte) := by
  induction k with
  | zero =>
    intro data h
    have hnil : data = [] := List.length_eq_zero.mp (by omega)
    subst hnil
    rfl
  | succ k ih =>
    intro data h
    have hseg : (data.take 7).length ≤ 7 := by
      simp only [List.length_take]
      omega
    have hB8 := coded_block_length r (data.take 7) hseg
    have htake : (CltuEncoder.coded_block r (data.take 7) ++
        CltuEncoder.blocks_loop r (data.drop 7) k).take 8 =
        CltuEncoder.coded_block r (data.take 7) := by
      rw [← hB8, List.take_left]
    have hdrop : (CltuEncoder.coded_block r (data.take 7) ++
        CltuEncoder.blocks_loop r (data.drop 7) k).drop 8 =
        CltuEncoder.blocks_loop r (data.drop 7) k := by
      rw [← hB8, List.drop_left]
    have hrest : (data.drop 7).length ≤ 7 * k := by
      simp only [List.length_drop]
      omega
    simp only [CltuEncoder.blocks_loop, CltuDecoder.blocks_loop, htake, hdrop,
      decode_coded_block r _ hseg, ih _ hrest, derandomized_block]
    have hdl : (data.drop 7).length = data.length - 7 := List.length_drop 7 data
    by_cases h7 : 7 ≤ data.length
    · have hpad : CltuEncoder.pad_block (data.take 7) = data.take 7 := by
        rw [CltuEncoder.pad_block]
        have : (data.take 7).length = 7 := by
          simp only [List.length_take]
          omega
        rw [this]
        simp
      rw [hpad, hdl]
      rw [show 7 * k - (data.length - 7) = 7 * (k + 1) - data.length from by omega]
      rw [← List.append_assoc, List.take_append_drop]
    · have htk : data.take 7 = data := List.take_of_length_le (by omega)
      have hdp : data.drop 7 = [] := List.drop_eq_nil_of_le (by omega)
      rw [CltuEncoder.pad_block, htk, hdp]
      simp only [List.length_nil, List.nil_append, List.append_assoc, Nat.sub_zero,
        ← List.replicate_add]
      rw [show 7 - data.length + 7 * k = 7 * (k + 1) - data.length from by omega]

theorem find_seq_start_here (rest : List Nat) :
    CltuDecoder.find_seq CltuDecoder.start_sequence (0xEB :: 0x90 :: rest) = some 0 := by
  simp [CltuDecoder.find_seq, CltuDecoder.find_aux, CltuDecoder.start_sequence]

theorem rfind_aux_eq_of (pat l : List Nat) (q : Nat)
    (hmatch : (l.drop q).take pat.length = pat)
    (habove : ∀ p, q < p → (l.drop p).take pat.length ≠ pat) :
    ∀ N, q ≤ N → CltuDecoder.rfind_aux pat l N = some q := by
  intro N
  induction N with
  | zero =>
    intro h0
    have hq0 : q = 0 := by omega
    subst hq0
    simp only [CltuDecoder.rfind_aux, hmatch, if_pos]
  | succ N ih =>
    intro hN
    by_cases hq : q = N + 1
    · subst hq
      simp only [CltuDecoder.rfind_aux, hmatch, if_pos]
    · have h1 : (l.drop (N + 1)).take pat.length ≠ pat := habove _ (by omega)
      simp only [CltuDecoder.rfind_aux, if_neg h1]
      exact ih (by omega)

theorem rfind_seq_append_stop (body : List Nat) :
    CltuDecoder.rfind_seq CltuDecoder.stop_sequence (body ++ CltuDecoder.stop_sequence) =
      some body.length := by
  have hsl : CltuDecoder.stop_sequence.length = 8 := rfl
  have hlen : (body ++ CltuDecoder.stop_sequence).length = body.length + 8 := by
    simp [hsl]
  have hmatch : ((body ++ CltuDecoder.stop_sequence).drop body.length).take
      CltuDecoder.stop_sequence.length = CltuDecoder.stop_sequence := by
    rw [List.drop_left, List.take_length]
  have habove : ∀ p, body.length < p →
      ((body ++ CltuDecoder.stop_sequence).drop p).take CltuDecoder.stop_sequence.length ≠
        CltuDecoder.stop_sequence := by
    intro p hp hc
    have hcl := congrArg List.length hc
    simp only [List.length_take, List.length_drop, hlen, hsl] at hcl
    omega
  exact rfind_aux_eq_of _ _ _ hmatch habove _ (by omega)

theorem dropWhile_replicate_filler_append (m : Nat) (t : List Nat) :
    List.dropWhile (fun x => x == CltuDecoder.filler_byte)
        (List.replicate m CltuDecoder.filler_byte ++ t) =
      List.dropWhile (fun x => x == CltuDecoder.filler_byte) t := by
  induction m with
  | zero => rfl
  | succ m ih =>
    simp only [List.replicate_succ, List.cons_append, List.dropWhile_cons, beq_self_eq_true,
      if_pos, ih]

theorem rstrip_filler_append_replicate (l : List Nat) (m : Nat) :
    CltuDecoder.rstrip_filler (l ++ List.replicate m CltuDecoder.filler_byte) =
      CltuDecoder.rstrip_filler l := by
  rw [CltuDecoder.rstrip_filler, CltuDecoder.rstrip_filler, List.reverse_append,
    List.reverse_replicate, dropWhile_replicate_filler_append]

theorem rstrip_filler_no_trailing (l : List Nat)
    (h : l.getLast? ≠ some CltuDecoder.filler_byte) :
    CltuDecoder.rstrip_filler l = l := by
  rw [CltuDecoder.rstrip_filler]
  cases hrev : l.reverse with
  | nil =>
    rw [List.reverse_eq_nil_iff] at hrev
    subst hrev
    rfl
  | cons a t =>
    have hl : l = (a :: t).reverse := by rw [← hrev, List.reverse_reverse]
    have hla : l.getLast? = some a := by
      rw [hl, List.reverse_cons, List.getLast?_concat]
    have hne : (a == CltuDecoder.filler_byte) = false := by
      rw [beq_eq_false_iff_ne]
      intro hE
      exact h (by rw [hla, hE])
    rw [List.dropWhile_cons, hne, if_neg (by simp), ← hrev, List.reverse_reverse]

theorem cltu_roundtrip_core (r : Bool) (data : List Nat)
    (hlast : data.getLast? ≠ some CltuDecoder.filler_byte) :
    CltuDecoder.apply r (CltuEncoder.apply r data) = .ok data := by
  have hdk : data.length ≤ 7 * ((data.length + 6) / 7) := by
    have h1 := Nat.div_add_mod (data.length + 6) 7
    have h2 : (data.length + 6) % 7 < 7 := Nat.mod_lt _ (by norm_num)
    omega
  have hbl := encoder_blocks_length r ((data.length + 6) / 7) data
  have henc : CltuEncoder.apply r data =
      0xEB :: 0x90 :: (CltuEncoder.blocks_loop r data ((data.length + 6) / 7) ++
        CltuDecoder.stop_sequence) := by
    rw [CltuEncoder.apply]
    rfl
  rw [henc, CltuDecoder.apply, find_seq_start_here]
  have hdrop2 : (0xEB :: 0x90 :: (CltuEncoder.blocks_loop r data ((data.length + 6) / 7) ++
      CltuDecoder.stop_sequence)).drop (0 + CltuDecoder.start_sequence.length) =
      CltuEncoder.blocks_loop r data ((data.length + 6) / 7) ++ CltuDecoder.stop_sequence := rfl
  dsimp only
  rw [hdrop2, rfind_seq_append_stop]
  dsimp only
  rw [List.take_left]
  rw [if_neg (by rw [hbl]; simp [Nat.mul_mod_right])]
  have hdiv : (CltuEncoder.blocks_loop r data ((data.length + 6) / 7)).length / 8 =
      (data.length + 6) / 7 := by
    rw [hbl]
    exact Nat.mul_div_cancel_left _ (by norm_num)
  rw [hdiv, decode_encode_blocks r ((data.length + 6) / 7) data hdk]
  dsimp only
  rw [show CltuEncoder.filler_byte = CltuDecoder.filler_byte from rfl,
    rstrip_filler_append_replicate, rstrip_filler_no_trailing data hlast]

/-- C5 (amended): for data of length 0, 1, 7, 8 or 22 whose final byte (if
any) is not the filler byte 0x55, CLTU decoding of the CLTU encoding of the
data returns exactly the data, both in the randomized and in the
non-randomized configuration.  (When the data ends in 0x55, the decoder's
trailing-filler strip also removes those data bytes, see the
counterexample.) -/
theorem cltu_roundtrip (data : List Nat)
    (_hlen : data.length = 0 ∨ data.length = 1 ∨ data.length = 7 ∨ data.length = 8 ∨
      data.length = 22)
    (_hbytes : ∀ b ∈ data, b < 256)
    (hlast : data.getLast? ≠ some 0x55) (r : Bool) :
    CltuDecoder.apply r (CltuEncoder.apply r data) = .ok data :=
  cltu_roundtrip_core r data hlast

/-- Witness for C5 at a concrete input: 7-byte data, randomized configuration. -/
theorem cltu_roundtrip_witness :
    CltuDecoder.apply true (CltuEncoder.apply true [1, 2, 3, 4, 5, 6, 7]) =
      .ok [1, 2, 3, 4, 5, 6, 7] :=
  cltu_roundtrip [1, 2, 3, 4, 5, 6, 7] (by decide) (by decide) (by decide) true

/-- Counterexample for C5 as stated: the 1-byte data `[0x55]` encodes into a
CLTU whose decoding is the empty byte string, because the decoder
right-strips every trailing 0x55 (padding and data alike). -/
theorem cltu_roundtrip_filler_counterexample :
    CltuDecoder.apply false (CltuEncoder.apply false [0x55]) = .ok [] ∧
    CltuDecoder.apply false (CltuEncoder.apply false [0x55]) ≠ .ok [0x55] := by
  constructor <;> decide

/-! ## Transfer frame data model

Big-endian primitive reads shared by the three frame parsers
(`struct.unpack(">H", ...)` and byte indexing). -/

/-- Big-endian 16-bit read: `frame[i] * 256 + frame[i+1]`. -/
def word16 (l : List Nat) (i : Nat) : Nat :=
  l.getD i 0 * 256 + l.getD (i + 1) 0

/-! ## TmTransferFrame (src/ccsds_tmtc_py/datalink/pdu/tm_transfer_frame.py) -/

/-- Parsed TM transfer frame: the attributes `TmTransferFrame.__init__`
derives and caches. -/
structure TmTransferFrame where
  frame : List Nat
  fecf_present : Bool
  security_header_length : Nat
  security_trailer_length : Nat
  transfer_frame_version_number : Nat
  spacecraft_id : Nat
  virtual_channel_id : Nat
  ocf_present : Bool
  master_channel_frame_count : Nat
  virtual_channel_frame_count : Nat
  secondary_header_present : Bool
  synchronisation_flag : Bool
  packet_order_flag : Bool
  segment_length_identifier : Nat
  first_header_pointer : Nat
  no_start_packet : Bool
  idle_frame : Bool
  secondary_header_version_number : Nat
  secondary_header_data_length : Nat
  data_field_start : Nat
  data_field_length : Nat
  ocf_start : Int
  valid : Bool
deriving DecidableEq, Repr

namespace TmTransferFrame

/-- `TmTransferFrame.is_idle_frame` (returns the cached `_idle_frame`). -/
def is_idle_frame (f : TmTransferFrame) : Bool :=
  f.idle_frame

/-- Version bits of the first header word: `(_two_octets_1 & 0xC000) >> 14`. -/
def hdr_version (frame : List Nat) : Nat :=
  (word16 frame 0 &&& 0xC000) >>> 14

/-- `(_two_octets_1 & 0x3FF0) >> 4`. -/
def hdr_scid (frame : List Nat) : Nat :=
  (word16 frame 0 &&& 0x3FF0) >>> 4

/-- `(_two_octets_1 & 0x000E) >> 1`. -/
def hdr_vcid (frame : List Nat) : Nat :=
  (word16 frame 0 &&& 0x000E) >>> 1

/-- `(_two_octets_1 & 0x0001) != 0`. -/
def hdr_ocf_flag (frame : List Nat) : Bool :=
  (word16 frame 0 &&& 0x0001) != 0

/-- Master channel frame count byte `frame[2]`. -/
def hdr_mcfc (frame : List Nat) : Nat :=
  frame.getD 2 0

/-- Virtual channel frame count byte `frame[3]`. -/
def hdr_vcfc (frame : List Nat) : Nat :=
  frame.getD 3 0

/-- `(_two_octets_2 & 0x8000) != 0`. -/
def hdr_sh_flag (frame : List Nat) : Bool :=
  (word16 frame 4 &&& 0x8000) != 0

/-- `(_two_octets_2 & 0x4000) != 0`. -/
def hdr_sync_flag (frame : List Nat) : Bool :=
  (word16 frame 4 &&& 0x4000) != 0

/-- `(_two_octets_2 & 0x2000) != 0`. -/
def hdr_pof_flag (frame : List Nat) : Bool :=
  (word16 frame 4 &&& 0x2000) != 0

/-- `(_two_octets_2 & 0x1800) >> 11`. -/
def hdr_slid (frame : List Nat) : Nat :=
  (word16 frame 4 &&& 0x1800) >>> 11

/-- `_two_octets_2 & 0x07FF` (11-bit first header pointer). -/
def hdr_fhp (frame : List Nat) : Nat :=
  word16 frame 4 &&& 0x07FF

/-- `(tfsh_id_byte & 0xC0) >> 6` of the secondary-header ID byte `frame[6]`. -/
def hdr_sh_version (frame : List Nat) : Nat :=
  (frame.getD 6 0 &&& 0xC0) >>> 6

/-- `tfsh_id_byte & 0x3F` of the secondary-header ID byte `frame[6]`. -/
def hdr_sh_data_length (frame : List Nat) : Nat :=
  frame.getD 6 0 &&& 0x3F

/-- `data_field_start` before adding the security header length: the 6-byte
primary header plus, when the secondary header is present, its 1-byte ID and
data part. -/
def hdr_data_field_start_base (frame : List Nat) : Nat :=
  if hdr_sh_flag frame then 6 + (1 + hdr_sh_data_length frame) else 6

/-- `end_offset`: 2 for the FECF when present, 4 for the OCF when flagged,
plus the security trailer length. -/
def hdr_end_offset (frame : List Nat) (fecf_present : Bool) (stl : Nat) : Nat :=
  (if fecf_present then 2 else 0) + (if hdr_ocf_flag frame then 4 else 0) + stl

/-- `data_field_length` as the Python signed computation. -/
def hdr_data_field_length (frame : List Nat) (fecf_present : Bool) (shl stl : Nat) : Int :=
  (frame.length : Int) - (hdr_data_field_start_base frame + shl) -
    hdr_end_offset frame fecf_present stl

/-- `ocf_start = len(frame) - (2 if fecf_present else 0) - 4`. -/
def hdr_ocf_start (frame : List Nat) (fecf_present : Bool) : Int :=
  (frame.length : Int) - (if fecf_present then 2 else 0) - 4

/-- Record built when every constructor check passes (the assignments of
`TmTransferFrame.__init__`). -/
def mk_frame (frame : List Nat) (fecf_present : Bool) (shl stl : Nat) : TmTransferFrame :=
  { frame := frame
    fecf_present := fecf_present
    security_header_length := shl
    security_trailer_length := stl
    transfer_frame_version_number := hdr_version frame
    spacecraft_id := hdr_scid frame
    virtual_channel_id := hdr_vcid frame
    ocf_present := hdr_ocf_flag frame
    master_channel_frame_count := hdr_mcfc frame
    virtual_channel_frame_count := hdr_vcfc frame
    secondary_header_present := hdr_sh_flag frame
    synchronisation_flag := hdr_sync_flag frame
    packet_order_flag := hdr_pof_flag frame
    segment_length_identifier := hdr_slid frame
    first_header_pointer := hdr_fhp frame
    no_start_packet := hdr_fhp frame == 0x07FF
    idle_frame := hdr_fhp frame == 0x07FE
    secondary_header_version_number := if hdr_sh_flag frame then hdr_sh_version frame else 0
    secondary_header_data_length := if hdr_sh_flag frame then hdr_sh_data_length frame else 0
    data_field_start := hdr_data_field_start_base frame + shl
    data_field_length := (hdr_data_field_length frame fecf_present shl stl).toNat
    ocf_start := if hdr_ocf_flag frame then hdr_ocf_start frame fecf_present else -1
    valid := true }

/-- Literal `TmTransferFrame(frame, fecf_present, shl, stl)`: the call first
runs `AbstractTransferFrame.__init__`, whose line
`self.virtual_channel_frame_count: int = 0` assigns through
`TmTransferFrame.virtual_channel_frame_count` — a property with no setter —
so every construction raises `AttributeError` before any header byte is
examined. -/
def parse (_frame : List Nat) (_fecf_present : Bool) (_shl _stl : Nat) :
    Except PyError TmTransferFrame :=
  .error (.attributeError "virtual_channel_frame_count")

/-- Field computation of `TmTransferFrame.__init__` once the blocking
superclass slip is repaired (the superclass default is immediately
overwritten by the parsed `frame[3]`, so the repair only removes the
failing default assignment); every check and assignment below follows the
constructor line by line. -/
def parse_repaired (frame : List Nat) (fecf_present : Bool) (shl stl : Nat) :
    Except PyError TmTransferFrame :=
  if frame.length < 6 then
    .error (.valueError "Frame too short for TM primary header")
  else if hdr_version frame ≠ 0 then
    .error (.valueError "Invalid TM Transfer Frame Version Number, expected 0")
  else if !hdr_sync_flag frame && hdr_pof_flag frame then
    .error (.valueError "Packet Order Flag must be 0 if Synchronisation Flag is 0")
  else if !hdr_sync_flag frame && (hdr_slid frame != 3) then
    .error (.valueError "Segment Length Identifier must be 3 if Synchronisation Flag is 0")
  else if hdr_sh_flag frame ∧ frame.length < 6 + 1 then
    .error (.valueError "Frame too short for Secondary Header ID byte")
  else if hdr_sh_flag frame ∧ frame.length < 6 + 1 + hdr_sh_data_length frame then
    .error (.valueError "Frame too short for Secondary Header data")
  else if hdr_data_field_length frame fecf_present shl stl < 0 then
    .error (.valueError "Calculated negative data field length")
  else if hdr_ocf_flag frame ∧ hdr_ocf_start frame fecf_present <
      (hdr_data_field_start_base frame + shl : Nat) +
        (hdr_data_field_length frame fecf_present shl stl).toNat then
    .error (.valueError "OCF overlaps with or precedes data field or security trailer")
  else
    .ok (mk_frame frame fecf_present shl stl)

end TmTransferFrame

/-- C3: the literal `TmTransferFrame` constructor never returns a frame (it
raises `AttributeError` on every input, breaking the claimed "succeeds /
specific parse error" contract), and under the repaired field computation
every successfully parsed TM frame whose first-header-pointer field decodes
to 0x7FE has `is_idle_frame() == true`. -/
theorem tm_parse_fhp_idle :
    (∀ (frame : List Nat) (fecf : Bool) (shl stl : Nat) (f : TmTransferFrame),
        TmTransferFrame.parse frame fecf shl stl ≠ .ok f) ∧
    (∀ (frame : List Nat) (fecf : Bool) (shl stl : Nat) (f : TmTransferFrame),
        TmTransferFrame.parse_repaired frame fecf shl stl = .ok f →
        f.first_header_pointer = 0x7FE → f.is_idle_frame = true) := by
  constructor
  · intro frame fecf shl stl f hc
    exact Except.noConfusion hc
  · intro frame fecf shl stl f hok hfhp
    rw [TmTransferFrame.parse_repaired] at hok
    split_ifs at hok
    have hf := Except.ok.inj hok
    subst hf
    have : TmTransferFrame.hdr_fhp frame = 0x7FE := hfhp
    simp only [TmTransferFrame.is_idle_frame, TmTransferFrame.mk_frame, this]
    rfl

/-- Witness for C3: a minimal 6-byte TM frame with first header pointer
0x7FE parses (repaired) and is reported idle. -/
theorem tm_parse_fhp_idle_witness :
    (TmTransferFrame.parse_repaired [0x00, 0x00, 0x00, 0x00, 0x1F, 0xFE] false 0 0).map
      TmTransferFrame.is_idle_frame = .ok true := by
  have hok : TmTransferFrame.parse_repaired [0x00, 0x00, 0x00, 0x00, 0x1F, 0xFE] false 0 0 =
      .ok (TmTransferFrame.mk_frame [0x00, 0x00, 0x00, 0x00, 0x1F, 0xFE] false 0 0) := by
    decide
  have hidle := tm_parse_fhp_idle.2 [0x00, 0x00, 0x00, 0x00, 0x1F, 0xFE] false 0 0
    (TmTransferFrame.mk_frame [0x00, 0x00, 0x00, 0x00, 0x1F, 0xFE] false 0 0) hok (by decide)
  rw [hok, Except.map, hidle]

/-! ## AosTransferFrame (src/ccsds_tmtc_py/datalink/pdu/aos_transfer_frame.py) -/

/-- `UserDataType` enum of the AOS module. -/
inductive UserDataType where
  | M_PDU
  | B_PDU
  | VCA
  | IDLE
deriving DecidableEq, Repr

/-- Parsed AOS transfer frame: the attributes `AosTransferFrame.__init__`
derives and caches. -/
structure AosTransferFrame where
  frame : List Nat
  fecf_present : Bool
  frame_header_error_control_present : Bool
  insert_zone_length : Nat
  user_data_type : UserDataType
  security_header_length : Nat
  security_trailer_length : Nat
  ocf_present : Bool
  transfer_frame_version_number : Nat
  spacecraft_id : Nat
  virtual_channel_id : Nat
  virtual_channel_frame_count : Nat
  replay_flag : Bool
  virtual_channel_frame_count_usage_flag : Bool
  virtual_channel_frame_count_cycle : Nat
  idle_frame : Bool
  pointer_field_offset : Nat
  first_header_pointer : Nat
  no_start_packet : Bool
  bitstream_data_pointer : Nat
  bitstream_all_valid : Bool
  data_field_start : Nat
  data_field_length : Nat
  ocf_start : Int
  valid : Bool
  valid_header : Bool
deriving DecidableEq, Repr

namespace AosTransferFrame

/-- `AosTransferFrame.is_idle_frame` (returns the cached `_idle_frame`). -/
def is_idle_frame (f : AosTransferFrame) : Bool :=
  f.idle_frame

/-- Minimum expected length: 6-byte primary header, plus 2 for the FHEC when
present, the insert zone, and 2 for the FHP/BDP field for M_PDU / B_PDU. -/
def min_expected_len (fhec_present : Bool) (iz_len : Nat) (udt : UserDataType) : Nat :=
  6 + (if fhec_present then 2 else 0) + iz_len +
    (if udt = .M_PDU ∨ udt = .B_PDU then 2 else 0)

/-- `(_two_octets_1 & 0xC000) >> 14`. -/
def hdr_version (frame : List Nat) : Nat :=
  (word16 frame 0 &&& 0xC000) >>> 14

/-- `(_two_octets_1 & 0x3FC0) >> 6`. -/
def hdr_scid (frame : List Nat) : Nat :=
  (word16 frame 0 &&& 0x3FC0) >>> 6

/-- `_two_octets_1 & 0x003F`. -/
def hdr_vcid (frame : List Nat) : Nat :=
  word16 frame 0 &&& 0x003F

/-- 24-bit virtual channel frame count from `frame[2:5]` (big endian). -/
def hdr_vcfc (frame : List Nat) : Nat :=
  frame.getD 2 0 * 65536 + frame.getD 3 0 * 256 + frame.getD 4 0

/-- `(signaling_field_byte & 0x80) != 0`. -/
def hdr_replay_flag (frame : List Nat) : Bool :=
  (frame.getD 5 0 &&& 0x80) != 0

/-- `(signaling_field_byte & 0x40) != 0`. -/
def hdr_vcfc_usage_flag (frame : List Nat) : Bool :=
  (frame.getD 5 0 &&& 0x40) != 0

/-- `signaling_field_byte & 0x0F`. -/
def hdr_vcfc_cycle (frame : List Nat) : Nat :=
  frame.getD 5 0 &&& 0x0F

/-- `_pointer_field_offset`: primary header, plus FHEC, plus insert zone. -/
def pointer_field_offset_val (fhec_present : Bool) (iz_len : Nat) : Nat :=
  6 + (if fhec_present then 2 else 0) + iz_len

/-- M_PDU first header pointer: 11 bits of the 16-bit field at the pointer
field offset. -/
def hdr_fhp (frame : List Nat) (fhec_present : Bool) (iz_len : Nat) : Nat :=
  word16 frame (pointer_field_offset_val fhec_present iz_len) &&& 0x07FF

/-- B_PDU bitstream data pointer: 14 bits of the 16-bit field at the pointer
field offset. -/
def hdr_bdp (frame : List Nat) (fhec_present : Bool) (iz_len : Nat) : Nat :=
  word16 frame (pointer_field_offset_val fhec_present iz_len) &&& 0x3FFF

/-- Final `_idle_frame` value after the constructor's sequential updates:
seeded with `virtual_channel_id == 63` and switched on by the reserved
pointer values (M_PDU 0x7FE, B_PDU 0x3FFE) or by the IDLE user data type. -/
def idle_frame_val (frame : List Nat) (fhec_present : Bool) (iz_len : Nat)
    (udt : UserDataType) : Bool :=
  (hdr_vcid frame == 0x3F) ||
    (match udt with
     | .M_PDU => hdr_fhp frame fhec_present iz_len == 0x07FE
     | .B_PDU => hdr_bdp frame fhec_present iz_len == 0x3FFE
     | .VCA => false
     | .IDLE => true)

/-- `user_data_prefix_len`: 2 for M_PDU / B_PDU, otherwise 0. -/
def user_data_prefix_len (udt : UserDataType) : Nat :=
  if udt = .M_PDU ∨ udt = .B_PDU then 2 else 0

/-- `trailer_len`: security trailer, plus 4 for the OCF and 2 for the FECF
when present. -/
def trailer_len_val (stl : Nat) (ocf_present fecf_present : Bool) : Nat :=
  stl + (if ocf_present then 4 else 0) + (if fecf_present then 2 else 0)

/-- `data_field_start`: pointer field offset, plus FHP/BDP prefix, plus the
security header length. -/
def data_field_start_val (fhec_present : Bool) (iz_len : Nat) (udt : UserDataType)
    (shl : Nat) : Nat :=
  pointer_field_offset_val fhec_present iz_len + user_data_prefix_len udt + shl

/-- `data_field_length` as the Python signed computation. -/
def data_field_length_int (frame : List Nat) (fhec_present : Bool) (iz_len : Nat)
    (udt : UserDataType) (shl stl : Nat) (ocf_present fecf_present : Bool) : Int :=
  (frame.length : Int) - data_field_start_val fhec_present iz_len udt shl -
    trailer_len_val stl ocf_present fecf_present

/-- `ocf_start = len(frame) - (2 if fecf else 0) - 4`. -/
def ocf_start_val (frame : List Nat) (fecf_present : Bool) : Int :=
  (frame.length : Int) - (if fecf_present then 2 else 0) - 4

/-- Record built when every constructor check passes (the assignments of
`AosTransferFrame.__init__`). -/
def mk_frame (frame : List Nat) (fhec_present : Bool) (iz_len : Nat) (udt : UserDataType)
    (ocf_present fecf_present : Bool) (shl stl : Nat) : AosTransferFrame :=
  { frame := frame
    fecf_present := fecf_present
    frame_header_error_control_present := fhec_present
    insert_zone_length := iz_len
    user_data_type := udt
    security_header_length := shl
    security_trailer_length := stl
    ocf_present := ocf_present
    transfer_frame_version_number := hdr_version frame
    spacecraft_id := hdr_scid frame
    virtual_channel_id := hdr_vcid frame
    virtual_channel_frame_count := hdr_vcfc frame
    replay_flag := hdr_replay_flag frame
    virtual_channel_frame_count_usage_flag := hdr_vcfc_usage_flag frame
    virtual_channel_frame_count_cycle := hdr_vcfc_cycle frame
    idle_frame := idle_frame_val frame fhec_present iz_len udt
    pointer_field_offset := pointer_field_offset_val fhec_present iz_len
    first_header_pointer :=
      if udt = .M_PDU then hdr_fhp frame fhec_present iz_len else 0x07FF
    no_start_packet :=
      if udt = .M_PDU then hdr_fhp frame fhec_present iz_len == 0x07FF else true
    bitstream_data_pointer :=
      if udt = .B_PDU then hdr_bdp frame fhec_present iz_len else 0
    bitstream_all_valid :=
      if udt = .B_PDU then hdr_bdp frame fhec_present iz_len == 0x3FFF else false
    data_field_start := data_field_start_val fhec_present iz_len udt shl
    data_field_length :=
      (data_field_length_int frame fhec_present iz_len udt shl stl
        ocf_present fecf_present).toNat
    ocf_start := if ocf_present then ocf_start_val frame fecf_present else -1
    valid := true
    valid_header := true }

/-- Literal `AosTransferFrame(...)` construction: after the length and
version checks the constructor executes
`self.replay_flag = (signaling_field_byte & 0x80) != 0`; `replay_flag` is a
property of the class with no setter, so the assignment raises
`AttributeError` on every frame that reaches it. -/
def parse (frame : List Nat) (fhec_present : Bool) (iz_len : Nat) (udt : UserDataType)
    (_ocf_present _fecf_present : Bool) (_shl _stl : Nat) :
    Except PyError AosTransferFrame :=
  if frame.length < min_expected_len fhec_present iz_len udt then
    .error (.valueError "Frame too short for AOS primary header")
  else if hdr_version frame ≠ 1 then
    .error (.valueError "Invalid AOS Transfer Frame Version Number, expected 1")
  else
    .error (.attributeError "replay_flag")

/-- Field computation of `AosTransferFrame.__init__` once the four
setter-less property assignments are repaired (`replay_flag`,
`virtual_channel_frame_count_usage_flag`, `virtual_channel_frame_count_cycle`
and `valid_header` each have an underscore-named backing field that the
properties read); every check and assignment below follows the constructor
line by line. -/
def parse_repaired (frame : List Nat) (fhec_present : Bool) (iz_len : Nat)
    (udt : UserDataType) (ocf_present fecf_present : Bool) (shl stl : Nat) :
    Except PyError AosTransferFrame :=
  if frame.length < min_expected_len fhec_present iz_len udt then
    .error (.valueError "Frame too short for AOS primary header")
  else if hdr_version frame ≠ 1 then
    .error (.valueError "Invalid AOS Transfer Frame Version Number, expected 1")
  else if !hdr_vcfc_usage_flag frame ∧ hdr_vcfc_cycle frame ≠ 0 then
    .error (.valueError "If VC Frame Count Usage Flag is 0, VC Frame Count Cycle must also be 0")
  else if udt = .M_PDU ∧
      frame.length < pointer_field_offset_val fhec_present iz_len + 2 then
    .error (.valueError "Frame too short for M_PDU First Header Pointer field")
  else if udt = .B_PDU ∧
      frame.length < pointer_field_offset_val fhec_present iz_len + 2 then
    .error (.valueError "Frame too short for B_PDU Bitstream Data Pointer field")
  else if data_field_length_int frame fhec_present iz_len udt shl stl
      ocf_present fecf_present < 0 then
    .error (.valueError "Calculated negative data field length")
  else if ocf_present ∧ (ocf_start_val frame fecf_present < 0 ∨
      ocf_start_val frame fecf_present <
        (data_field_start_val fhec_present iz_len udt shl : Int) +
          (data_field_length_int frame fhec_present iz_len udt shl stl
            ocf_present fecf_present).toNat -
          (if ocf_present then 4 else 0)) then
    .error (.valueError "OCF overlaps with or precedes data field or security trailer")
  else
    .ok (mk_frame frame fhec_present iz_len udt ocf_present fecf_present shl stl)

end AosTransferFrame

/-- C2: the literal `AosTransferFrame` constructor never returns a frame
(the `replay_flag` property assignment raises `AttributeError` on every
frame passing the length and version checks, so no AOS parse "succeeds"),
and under the repaired field computation every successfully parsed AOS
frame whose virtual-channel-id field is 63 has `is_idle_frame() == true`,
regardless of the user data type and of the pointer value. -/
theorem aos_parse_vcid63_idle :
    (∀ (frame : List Nat) (fhec : Bool) (iz : Nat) (udt : UserDataType)
        (ocf fecf : Bool) (shl stl : Nat) (f : AosTransferFrame),
        AosTransferFrame.parse frame fhec iz udt ocf fecf shl stl ≠ .ok f) ∧
    (∀ (frame : List Nat) (fhec : Bool) (iz : Nat) (udt : UserDataType)
        (ocf fecf : Bool) (shl stl : Nat) (f : AosTransferFrame),
        AosTransferFrame.parse_repaired frame fhec iz udt ocf fecf shl stl = .ok f →
        f.virtual_channel_id = 63 → f.is_idle_frame = true) := by
  constructor
  · intro frame fhec iz udt ocf fecf shl stl f hc
    rw [AosTransferFrame.parse] at hc
    split_ifs at hc
  · intro frame fhec iz udt ocf fecf shl stl f hok hvc
    rw [AosTransferFrame.parse_repaired] at hok
    split_ifs at hok
    all_goals
      have hf := Except.ok.inj hok
      subst hf
      have hvcid : AosTransferFrame.hdr_vcid frame = 63 := hvc
      simp only [AosTransferFrame.is_idle_frame, AosTransferFrame.mk_frame,
        AosTransferFrame.idle_frame_val, hvcid]
      rfl

/-- Witness for C2: a 6-byte AOS IDLE-type frame with virtual channel id 63
parses (repaired) and is reported idle. -/
theorem aos_parse_vcid63_idle_witness :
    (AosTransferFrame.parse_repaired [0x6A, 0xBF, 0x00, 0x00, 0x00, 0x40] false 0
        UserDataType.IDLE false false 0 0).map
      AosTransferFrame.is_idle_frame = .ok true := by
  have hok : AosTransferFrame.parse_repaired [0x6A, 0xBF, 0x00, 0x00, 0x00, 0x40] false 0
      UserDataType.IDLE false false 0 0 =
      .ok (AosTransferFrame.mk_frame [0x6A, 0xBF, 0x00, 0x00, 0x00, 0x40] false 0
        UserDataType.IDLE false false 0 0) := by
    decide
  have hidle := aos_parse_vcid63_idle.2 [0x6A, 0xBF, 0x00, 0x00, 0x00, 0x40] false 0
    UserDataType.IDLE false false 0 0
    (AosTransferFrame.mk_frame [0x6A, 0xBF, 0x00, 0x00, 0x00, 0x40] false 0
      UserDataType.IDLE false false 0 0) hok (by decide)
  rw [hok, Except.map, hidle]

/-! ## TcTransferFrame (src/ccsds_tmtc_py/datalink/pdu/tc_transfer_frame.py) -/

/-- `FrameType` enum of the TC module. -/
inductive FrameType where
  | AD
  | RESERVED
  | BD
  | BC
deriving DecidableEq, Repr

/-- `ControlCommandType` enum of the TC module. -/
inductive ControlCommandType where
  | UNLOCK
  | SET_VR
  | RESERVED_CTRL
deriving DecidableEq, Repr

/-- `SequenceFlagType` enum of the TC module. -/
inductive SequenceFlagType where
  | CONTINUE
  | FIRST
  | LAST
  | NO_SEGMENT
deriving DecidableEq, Repr

/-- Parsed TC transfer frame: the attributes `TcTransferFrame.__init__`
derives and caches (`control_command_type` is `none` outside BC frames,
like the property). -/
structure TcTransferFrame where
  frame : List Nat
  fecf_present : Bool
  security_header_length : Nat
  security_trailer_length : Nat
  transfer_frame_version_number : Nat
  spacecraft_id : Nat
  virtual_channel_id : Nat
  virtual_channel_frame_count : Nat
  bypass_flag : Bool
  control_command_flag : Bool
  frame_length : Nat
  frame_type : FrameType
  segmented : Bool
  map_id : Nat
  sequence_flag : SequenceFlagType
  control_command_type : Option ControlCommandType
  set_vr_value : Nat
  data_field_start : Nat
  data_field_length : Nat
  ocf_present : Bool
  ocf_start : Int
  valid : Bool
deriving DecidableEq, Repr

namespace TcTransferFrame

/-- `(hdr_part1 & 0xC000) >> 14`. -/
def hdr_version (frame : List Nat) : Nat :=
  (word16 frame 0 &&& 0xC000) >>> 14

/-- `(hdr_part1 & 0x2000) != 0`. -/
def hdr_bypass (frame : List Nat) : Bool :=
  (word16 frame 0 &&& 0x2000) != 0

/-- `(hdr_part1 & 0x1000) != 0`. -/
def hdr_ctrl (frame : List Nat) : Bool :=
  (word16 frame 0 &&& 0x1000) != 0

/-- `hdr_part1 & 0x03FF`. -/
def hdr_scid (frame : List Nat) : Nat :=
  word16 frame 0 &&& 0x03FF

/-- `(hdr_part2 & 0xFC00) >> 10`. -/
def hdr_vcid (frame : List Nat) : Nat :=
  (word16 frame 2 &&& 0xFC00) >>> 10

/-- `hdr_part2 & 0x03FF` (frame length field, actual length minus one). -/
def hdr_len_field (frame : List Nat) : Nat :=
  word16 frame 2 &&& 0x03FF

/-- `_actual_frame_length = _frame_length_field + 1`. -/
def actual_frame_length (frame : List Nat) : Nat :=
  hdr_len_field frame + 1

/-- Virtual channel frame count byte `frame[4]`. -/
def hdr_vcfc (frame : List Nat) : Nat :=
  frame.getD 4 0

/-- `TcTransferFrame._determine_frame_type`: BC on the control command
flag, else BD on the bypass flag, else AD. -/
def determine_frame_type (ctrl bypass : Bool) : FrameType :=
  if ctrl then .BC else if bypass then .BD else .AD

/-- The frame type derived from the two header flags. -/
def frame_type_val (frame : List Nat) : FrameType :=
  determine_frame_type (hdr_ctrl frame) (hdr_bypass frame)

/-- `self._segmented = self.determined_frame_type != FrameType.BC and
segmented_fn(self.virtual_channel_id)` (with the attribute read repaired to
the stored `_determined_frame_type`). -/
def segmented_val (frame : List Nat) (segmented_fn : Nat → Bool) : Bool :=
  decide (frame_type_val frame ≠ FrameType.BC) && segmented_fn (hdr_vcid frame)

/-- `SequenceFlagType((seg_header_byte & 0xC0) >> 6)` (the two-bit value). -/
def seq_flag_of (v : Nat) : SequenceFlagType :=
  match v with
  | 0 => .CONTINUE
  | 1 => .FIRST
  | 2 => .LAST
  | _ => .NO_SEGMENT

/-- BC-frame data field length (`_actual_frame_length - 5 - (2 if fecf)`). -/
def bc_data_field_length_int (frame : List Nat) (fecf_present : Bool) : Int :=
  (actual_frame_length frame : Int) - 5 - (if fecf_present then 2 else 0)

/-- AD/BD-frame `data_field_start` (primary header, optional segmentation
header byte, security header). -/
def data_field_start_val (segmented : Bool) (shl : Nat) : Nat :=
  5 + (if segmented then 1 else 0) + shl

/-- AD/BD-frame data field length as the Python signed computation. -/
def data_field_length_int (frame : List Nat) (segmented : Bool) (fecf_present : Bool)
    (shl stl : Nat) : Int :=
  (actual_frame_length frame : Int) - data_field_start_val segmented shl - stl -
    (if fecf_present then 2 else 0)

/-- Record built in the BC branch of the constructor: security lengths are
forced to 0, the control command is decoded from the data field's literal
byte pattern (`0x00` = UNLOCK; `0x82 0x00 n` = SET_VR). -/
def mk_bc_frame (frame : List Nat) (fecf_present : Bool) : TcTransferFrame :=
  { frame := frame
    fecf_present := fecf_present
    security_header_length := 0
    security_trailer_length := 0
    transfer_frame_version_number := hdr_version frame
    spacecraft_id := hdr_scid frame
    virtual_channel_id := hdr_vcid frame
    virtual_channel_frame_count := hdr_vcfc frame
    bypass_flag := hdr_bypass frame
    control_command_flag := hdr_ctrl frame
    frame_length := actual_frame_length frame
    frame_type := frame_type_val frame
    segmented := false
    map_id := 0
    sequence_flag := .NO_SEGMENT
    control_command_type := some
      (if (bc_data_field_length_int frame fecf_present).toNat = 1 ∧ frame.getD 5 0 = 0x00 then
        .UNLOCK
      else if (bc_data_field_length_int frame fecf_present).toNat = 3 ∧
          frame.getD 5 0 = 0x82 ∧ frame.getD 6 0 = 0x00 then
        .SET_VR
      else
        .RESERVED_CTRL)
    set_vr_value :=
      if (bc_data_field_length_int frame fecf_present).toNat = 3 ∧
          frame.getD 5 0 = 0x82 ∧ frame.getD 6 0 = 0x00 then
        frame.getD 7 0
      else 0
    data_field_start := 5
    data_field_length := (bc_data_field_length_int frame fecf_present).toNat
    ocf_present := false
    ocf_start := -1
    valid := true }

/-- Record built in the AD/BD branch of the constructor. -/
def mk_data_frame (frame : List Nat) (segmented : Bool) (fecf_present : Bool)
    (shl stl : Nat) : TcTransferFrame :=
  { frame := frame
    fecf_present := fecf_present
    security_header_length := shl
    security_trailer_length := stl
    transfer_frame_version_number := hdr_version frame
    spacecraft_id := hdr_scid frame
    virtual_channel_id := hdr_vcid frame
    virtual_channel_frame_count := hdr_vcfc frame
    bypass_flag := hdr_bypass frame
    control_command_flag := hdr_ctrl frame
    frame_length := actual_frame_length frame
    frame_type := frame_type_val frame
    segmented := segmented
    map_id := if segmented then frame.getD 5 0 &&& 0x3F else 0
    sequence_flag :=
      if segmented then seq_flag_of ((frame.getD 5 0 &&& 0xC0) >>> 6) else .NO_SEGMENT
    control_command_type := none
    set_vr_value := 0
    data_field_start := data_field_start_val segmented shl
    data_field_length := (data_field_length_int frame segmented fecf_present shl stl).toNat
    ocf_present := false
    ocf_start := -1
    valid := true }

/-- Literal `TcTransferFrame(frame, segmented_fn, fecf_present, shl, stl)`:
after the length, version and length-field checks, line 73 of the
constructor reads `self.determined_frame_type`, an attribute that exists
neither as a stored field (the constructor stored
`_determined_frame_type`) nor as a property (the property is named
`frame_type`), so every construction that reaches it raises
`AttributeError`. -/
def parse (frame : List Nat) (_segmented_fn : Nat → Bool) (_fecf_present : Bool)
    (_shl _stl : Nat) : Except PyError TcTransferFrame :=
  if frame.length < 5 then
    .error (.valueError "Frame too short for TC primary header")
  else if frame.length > 1024 then
    .error (.valueError "Frame length exceeds maximum TC frame length of 1024 bytes")
  else if hdr_version frame ≠ 0 then
    .error (.valueError "Invalid TC Transfer Frame Version Number, expected 0")
  else if actual_frame_length frame ≠ frame.length then
    .error (.valueError "Frame length field value does not match actual frame length")
  else
    .error (.attributeError "determined_frame_type")

/-- Field computation of `TcTransferFrame.__init__` once the mis-named
attribute reads are repaired (`determined_frame_type` for
`_determined_frame_type`, `actual_security_header_length` /
`actual_security_trailer_length` for their underscore-named stored fields);
every check and assignment below follows the constructor line by line. -/
def parse_repaired (frame : List Nat) (segmented_fn : Nat → Bool) (fecf_present : Bool)
    (shl stl : Nat) : Except PyError TcTransferFrame :=
  if frame.length < 5 then
    .error (.valueError "Frame too short for TC primary header")
  else if frame.length > 1024 then
    .error (.valueError "Frame length exceeds maximum TC frame length of 1024 bytes")
  else if hdr_version frame ≠ 0 then
    .error (.valueError "Invalid TC Transfer Frame Version Number, expected 0")
  else if actual_frame_length frame ≠ frame.length then
    .error (.valueError "Frame length field value does not match actual frame length")
  else if frame_type_val frame = .BC then
    if bc_data_field_length_int frame fecf_present < 0 then
      .error (.valueError "Calculated negative data field length for BC frame")
    else
      .ok (mk_bc_frame frame fecf_present)
  else
    if data_field_length_int frame (segmented_val frame segmented_fn) fecf_present
        shl stl < 0 then
      .error (.valueError "Calculated negative data field length for AD or BD frame")
    else if segmented_val frame segmented_fn ∧ frame.length ≤ 5 then
      .error (.valueError "Frame too short for segmentation header byte")
    else
      .ok (mk_data_frame frame (segmented_val frame segmented_fn) fecf_present shl stl)

end TcTransferFrame

/-- The TC frame of concrete scenario (a): spacecraft id 0xAB, virtual
channel 5, vcfc 0xCD, bypass 0, control 0, payload
"TestDataPayloadForADFrame" (25 bytes) and a 2-byte FECF; the length field
holds 31 (total length 32 minus one). -/
def tc_ad_example_frame : List Nat :=
  [0x00, 0xAB, 0x14, 0x1F, 0xCD,
   0x54, 0x65, 0x73, 0x74, 0x44, 0x61, 0x74, 0x61, 0x50, 0x61, 0x79, 0x6C, 0x6F,
   0x61, 0x64, 0x46, 0x6F, 0x72, 0x41, 0x44, 0x46, 0x72, 0x61, 0x6D, 0x65,
   0x00, 0x00]

/-- C1: constructing the claimed TC frame (spacecraft_id 0xAB, vc_id 5,
vcfc 0xCD, bypass 0, control 0, payload "TestDataPayloadForADFrame", FECF
present) does not succeed in the source — the constructor raises
`AttributeError` reading the mis-named `determined_frame_type` (and
`TcTransferFrameBuilder.build` fails even earlier on the nonexistent
`TcTransferFrame.TC_VERSION`) — while the repaired field computation
yields a frame with `frame_type == AD`, for every per-virtual-channel
segmentation predicate. -/
theorem tc_ad_frame_construction (segmented_fn : Nat → Bool) :
    TcTransferFrame.parse tc_ad_example_frame segmented_fn true 0 0 =
      .error (.attributeError "determined_frame_type") ∧
    (TcTransferFrame.parse_repaired tc_ad_example_frame segmented_fn true 0 0).map
      TcTransferFrame.frame_type = .ok FrameType.AD := by
  constructor
  · rfl
  · have h5 : TcTransferFrame.hdr_vcid tc_ad_example_frame = 5 := rfl
    simp only [TcTransferFrame.parse_repaired, TcTransferFrame.segmented_val, h5]
    cases hs : segmented_fn 5 <;> decide

/-! ## Transfer frame builders

Shared helpers for the Python truthiness patterns
`if some_optional_bytes: n += len(some_optional_bytes)` and
`if header or trailer:` (an empty byte string is falsy but also has
length 0, so the length contribution equals `opt_len`). -/

/-- Length contribution of an optional byte string. -/
def opt_len : Option (List Nat) → Nat
  | none => 0
  | some l => l.length

/-- Python truthiness of an optional byte string (`None` and `b''` are falsy). -/
def opt_truthy : Option (List Nat) → Bool
  | none => false
  | some l => !l.isEmpty

/-- `_PayloadUnit` of tm_transfer_frame_builder.py. -/
structure TmPayloadUnit where
  is_packet : Bool
  data : List Nat
deriving DecidableEq, Repr

/-- `_PayloadUnit` of aos_transfer_frame_builder.py (`type_val` is one of
`TYPE_BITSTREAM = 0`, `TYPE_PACKET = 1`, `TYPE_DATA = 2`). -/
structure AosPayloadUnit where
  type_val : Nat
  data : List Nat
  valid_data_bits : Nat
deriving DecidableEq, Repr

/-! ## TmTransferFrameBuilder (src/ccsds_tmtc_py/datalink/builder/tm_transfer_frame_builder.py) -/

namespace TmTransferFrameBuilder

/-- Mutable state of `TmTransferFrameBuilder` (the fields assigned in
`__init__`). -/
structure State where
  length : Nat
  secondary_header_data_length : Nat
  ocf_present : Bool
  fecf_present : Bool
  free_user_data_length : Int
  spacecraft_id : Nat
  virtual_channel_id : Nat
  virtual_channel_frame_count : Nat
  master_channel_frame_count : Nat
  synchronisation_flag : Bool
  packet_order_flag : Bool
  segment_length_identifier : Nat
  secondary_header_bytes : Option (List Nat)
  ocf_bytes : Option (List Nat)
  idle : Bool
  security_header : Option (List Nat)
  security_trailer : Option (List Nat)
  payload_units : List TmPayloadUnit
deriving DecidableEq, Repr

/-- `TmTransferFrameBuilder.set_security`: the method first adds the old
security length back into `_free_user_data_length`, then checks the new
length against it; on rejection it raises with the increased
`_free_user_data_length` already stored (there is no revert). -/
def set_security (b : State) (header trailer : Option (List Nat)) :
    Except PyError Unit × State :=
  let current_sec_len := opt_len b.security_header + opt_len b.security_trailer
  let free1 := b.free_user_data_length + current_sec_len
  let new_sec_len := opt_len header + opt_len trailer
  if free1 < new_sec_len then
    (.error (.valueError "Not enough free space for the provided security header/trailer"),
     { b with free_user_data_length := free1 })
  else
    (.ok (),
     { b with security_header := header, security_trailer := trailer,
              free_user_data_length := free1 - new_sec_len })

/-- `TmTransferFrameBuilder._compute_first_header_pointer`: the idle value
when idle; otherwise `offset` starts at the security-header length, only
the FIRST payload unit is inspected, and its packet flag decides between
`offset` (capped at the reserved value) and the no-packet value. -/
def compute_first_header_pointer (b : State) : Nat :=
  if b.idle then 0x7FE
  else
    let offset := opt_len b.security_header
    match b.payload_units with
    | [] => 0x7FF
    | first_unit :: _ =>
      if first_unit.is_packet then
        if offset ≥ 0x7FF then 0x7FF else offset
      else 0x7FF

end TmTransferFrameBuilder

/-! ## AosTransferFrameBuilder (src/ccsds_tmtc_py/datalink/builder/aos_transfer_frame_builder.py) -/

namespace AosTransferFrameBuilder

/-- Mutable state of `AosTransferFrameBuilder` (the fields assigned in
`__init__`). -/
structure State where
  length : Nat
  frame_header_error_control_present : Bool
  insert_zone_length : Nat
  user_data_type : UserDataType
  ocf_present : Bool
  fecf_present : Bool
  free_user_data_length : Int
  spacecraft_id : Nat
  virtual_channel_id : Nat
  virtual_channel_frame_count : Nat
  replay_flag : Bool
  virtual_channel_frame_count_usage_flag : Bool
  virtual_channel_frame_count_cycle : Nat
  insert_zone_bytes : Option (List Nat)
  ocf_bytes : Option (List Nat)
  idle : Bool
  security_header : Option (List Nat)
  security_trailer : Option (List Nat)
  payload_units : List AosPayloadUnit
deriving DecidableEq, Repr

/-- `AosTransferFrameBuilder.set_security`: like the TM method, but on
rejection the old security length is subtracted back
(`self._free_user_data_length -= current_sec_len  # revert`) before the
raise, so the builder is left unchanged. -/
def set_security (b : State) (header trailer : Option (List Nat)) :
    Except PyError Unit × State :=
  let current_sec_len := opt_len b.security_header + opt_len b.security_trailer
  let free1 := b.free_user_data_length + current_sec_len
  let new_sec_len := opt_len header + opt_len trailer
  if free1 < new_sec_len then
    (.error (.valueError "Not enough free space for the provided security header/trailer"),
     { b with free_user_data_length := free1 - current_sec_len })
  else
    (.ok (),
     { b with security_header := header, security_trailer := trailer,
              free_user_data_length := free1 - new_sec_len })

/-- Loop of `_compute_mpdu_first_header_pointer`: scans the payload units
in order; a packet unit returns the accumulated offset (capped at the
reserved no-packet value), any other unit adds its byte length. -/
def scan_loop : List AosPayloadUnit → Nat → Nat
  | [], _ => 0x7FF
  | u :: rest, offset =>
    if u.type_val = 1 then
      if offset ≥ 0x7FF then 0x7FF else offset
    else scan_loop rest (offset + u.data.length)

/-- `AosTransferFrameBuilder._compute_mpdu_first_header_pointer`: the idle
value is returned only when the builder is idle with an M_PDU user data
type AND the virtual channel id is not 63; in every other case (including
the idle builder with vc_id 63 that `set_idle(True)` produces) the payload
scan runs, starting at offset 0 — the security header length is NOT added. -/
def compute_mpdu_first_header_pointer (b : State) : Nat :=
  if b.idle ∧ b.user_data_type = .M_PDU then
    if b.virtual_channel_id ≠ 0x3F then 0x7FE
    else scan_loop b.payload_units 0
  else scan_loop b.payload_units 0

end AosTransferFrameBuilder

/-! ## TcTransferFrameBuilder (src/ccsds_tmtc_py/datalink/builder/tc_transfer_frame_builder.py) -/

namespace TcTransferFrameBuilder

/-- Mutable state of `TcTransferFrameBuilder` (the fields assigned in
`__init__`). -/
structure State where
  fecf_present : Bool
  bypass_flag : Bool
  control_command_flag : Bool
  spacecraft_id : Nat
  virtual_channel_id : Nat
  frame_sequence_number : Nat
  segmented : Bool
  map_id : Nat
  sequence_flag : SequenceFlagType
  security_header : Option (List Nat)
  security_trailer : Option (List Nat)
  payload_data : Option (List Nat)
  max_payload_length : Int
  current_payload_length : Int
  free_user_data_length : Int
deriving DecidableEq, Repr

/-- `TcTransferFrameBuilder._update_free_length`: recomputes
`_free_user_data_length` from the configuration and raises when it is
negative — with the negative value already stored. -/
def update_free_length (b : State) : Except PyError Unit × State :=
  let overhead := (if b.segmented then (1 : Int) else 0) +
    opt_len b.security_header + opt_len b.security_trailer
  let f := b.max_payload_length - overhead - b.current_payload_length
  let b1 := { b with free_user_data_length := f }
  if f < 0 then
    (.error (.valueError "Negative free user data length calculated"), b1)
  else
    (.ok (), b1)

/-- `TcTransferFrameBuilder.set_security`: stores the new header/trailer
first and only then recomputes the free length, so a rejection leaves the
new security fields and a negative `_free_user_data_length` behind. -/
def set_security (b : State) (header trailer : Option (List Nat)) :
    Except PyError Unit × State :=
  if b.control_command_flag then
    if opt_truthy header || opt_truthy trailer then
      (.error (.illegalState "Security header/trailer is not supported for BC frames by this builder"),
       b)
    else
      update_free_length { b with security_header := none, security_trailer := none }
  else
    update_free_length { b with security_header := header, security_trailer := trailer }

end TcTransferFrameBuilder

/-- A reachable TM builder state: `create(30, 0, False, False)` (free 24),
`set_security(10 bytes, None)` (free 14), `add_data(10 bytes)` (free 4). -/
def tm_set_security_cex_state : TmTransferFrameBuilder.State :=
  { length := 30
    secondary_header_data_length := 0
    ocf_present := false
    fecf_present := false
    free_user_data_length := 4
    spacecraft_id := 0
    virtual_channel_id := 0
    virtual_channel_frame_count := 0
    master_channel_frame_count := 0
    synchronisation_flag := false
    packet_order_flag := false
    segment_length_identifier := 3
    secondary_header_bytes := none
    ocf_bytes := none
    idle := false
    security_header := some (List.replicate 10 0xAA)
    security_trailer := none
    payload_units := [{ is_packet := false, data := List.replicate 10 0x00 }] }

/-- Counterexample for C6 as stated: on the TM builder, a rejected
`set_security` call (a 20-byte header against 14 available bytes) raises
the claimed error but leaves `free_user_data_length` at 14 instead of its
prior value 4 — the builder is NOT unchanged. -/
theorem tm_set_security_not_atomic :
    (TmTransferFrameBuilder.set_security tm_set_security_cex_state
        (some (List.replicate 20 0xBB)) none).1 =
      .error (.valueError "Not enough free space for the provided security header/trailer") ∧
    (TmTransferFrameBuilder.set_security tm_set_security_cex_state
        (some (List.replicate 20 0xBB)) none).2.free_user_data_length = 14 ∧
    tm_set_security_cex_state.free_user_data_length = 4 := by
  refine ⟨by decide, by decide, by decide⟩

/-- C6 (amended): only the AOS builder's `set_security` is atomic — a call
whose security header/trailer does not fit is rejected with an error and
leaves the state exactly unchanged, while a successful call atomically
revises `free_user_data_length` by the old security length minus the new
one and stores the new header/trailer.  (The TM builder leaves
`free_user_data_length` increased by the previously-set security length on
rejection, and the TC builder stores the new header/trailer with a
negative `free_user_data_length`.) -/
theorem aos_set_security_atomic (b : AosTransferFrameBuilder.State)
    (header trailer : Option (List Nat)) :
    (b.free_user_data_length +
        ((opt_len b.security_header + opt_len b.security_trailer : Nat) : Int) <
        ((opt_len header + opt_len trailer : Nat) : Int) →
      (AosTransferFrameBuilder.set_security b header trailer).1 =
        .error (.valueError "Not enough free space for the provided security header/trailer") ∧
      (AosTransferFrameBuilder.set_security b header trailer).2 = b) ∧
    (((opt_len header + opt_len trailer : Nat) : Int) ≤
        b.free_user_data_length +
          ((opt_len b.security_header + opt_len b.security_trailer : Nat) : Int) →
      (AosTransferFrameBuilder.set_security b header trailer).1 = .ok () ∧
      (AosTransferFrameBuilder.set_security b header trailer).2 =
        { b with security_header := header, security_trailer := trailer,
                 free_user_data_length := b.free_user_data_length +
                   ((opt_len b.security_header + opt_len b.security_trailer : Nat) : Int) -
                   ((opt_len header + opt_len trailer : Nat) : Int) }) := by
  constructor
  · intro hlt
    rw [AosTransferFrameBuilder.set_security]
    rw [if_pos hlt]
    refine ⟨rfl, ?_⟩
    have harith : b.free_user_data_length +
        ((opt_len b.security_header + opt_len b.security_trailer : Nat) : Int) -
        ((opt_len b.security_header + opt_len b.security_trailer : Nat) : Int) =
        b.free_user_data_length := by ring
    dsimp only
    rw [harith]
  · intro hle
    rw [AosTransferFrameBuilder.set_security]
    rw [if_neg (not_lt.mpr hle)]
    exact ⟨rfl, rfl⟩

/-- A concrete AOS builder state with 10 free bytes and a 6-byte prior
security header. -/
def aos_set_security_witness_state : AosTransferFrameBuilder.State :=
  { length := 40
    frame_header_error_control_present := false
    insert_zone_length := 0
    user_data_type := .M_PDU
    ocf_present := false
    fecf_present := false
    free_user_data_length := 10
    spacecraft_id := 0
    virtual_channel_id := 0
    virtual_channel_frame_count := 0
    replay_flag := false
    virtual_channel_frame_count_usage_flag := true
    virtual_channel_frame_count_cycle := 0
    insert_zone_bytes := none
    ocf_bytes := none
    idle := false
    security_header := some (List.replicate 6 0xAA)
    security_trailer := none
    payload_units := [] }

/-- Witness for C6 at a concrete input: an AOS builder with 10 free bytes,
a 6-byte prior security header; an oversized replacement (20 bytes) is
rejected leaving the state unchanged. -/
theorem aos_set_security_atomic_witness :
    (AosTransferFrameBuilder.set_security aos_set_security_witness_state
        (some (List.replicate 20 0xBB)) none).1 =
      .error (.valueError "Not enough free space for the provided security header/trailer") ∧
    (AosTransferFrameBuilder.set_security aos_set_security_witness_state
        (some (List.replicate 20 0xBB)) none).2 = aos_set_security_witness_state := by
  exact (aos_set_security_atomic aos_set_security_witness_state
    (some (List.replicate 20 0xBB)) none).1 (by decide)

/-! ## First-header-pointer computation (claim C7) -/

/-- Declarative scan written from the claim's words: the byte offset of the
first payload unit flagged as packet start, found by scanning the units
(given as packet-flag / byte-length pairs) in order; `none` when no unit
is flagged. -/
def scan_packet_offset : List (Bool × Nat) → Option Nat
  | [] => none
  | (is_start, len) :: rest =>
    if is_start then some 0 else (scan_packet_offset rest).map (· + len)

/-- The first-header-pointer value the claim asserts for a builder: the
reserved idle value when the builder is marked idle, else the scanned
offset of the first packet-start unit, else the reserved no-packet value. -/
def claimed_first_header_pointer (idle : Bool) (units : List (Bool × Nat)) : Nat :=
  if idle then 0x7FE
  else
    match scan_packet_offset units with
    | some o => o
    | none => 0x7FF

/-- A TM builder state whose first payload unit is a 3-byte data unit and
whose second unit is flagged as packet start. -/
def tm_fhp_cex_state : TmTransferFrameBuilder.State :=
  { length := 30
    secondary_header_data_length := 0
    ocf_present := false
    fecf_present := false
    free_user_data_length := 0
    spacecraft_id := 0
    virtual_channel_id := 0
    virtual_channel_frame_count := 0
    master_channel_frame_count := 0
    synchronisation_flag := false
    packet_order_flag := false
    segment_length_identifier := 3
    secondary_header_bytes := none
    ocf_bytes := none
    idle := false
    security_header := none
    security_trailer := none
    payload_units := [{ is_packet := false, data := [1, 2, 3] },
                      { is_packet := true, data := List.replicate 21 0x07 }] }

/-- Counterexample for C7 as stated: scanning the accumulated payload units
in order finds the packet start at byte offset 3, but the TM builder only
inspects the first unit and writes the reserved no-packet value 0x7FF. -/
theorem tm_first_header_pointer_no_scan :
    TmTransferFrameBuilder.compute_first_header_pointer tm_fhp_cex_state = 0x7FF ∧
    claimed_first_header_pointer tm_fhp_cex_state.idle
      (tm_fhp_cex_state.payload_units.map fun u => (u.is_packet, u.data.length)) = 3 ∧
    (0x7FF : Nat) ≠ 3 := by
  refine ⟨by decide, by decide, by decide⟩

theorem aos_scan_loop_eq (units : List AosPayloadUnit) :
    ∀ offset : Nat,
      AosTransferFrameBuilder.scan_loop units offset =
        match scan_packet_offset (units.map fun u => (u.type_val == 1, u.data.length)) with
        | some o => if offset + o ≥ 0x7FF then 0x7FF else offset + o
        | none => 0x7FF := by
  induction units with
  | nil => intro offset; rfl
  | cons u rest ih =>
    intro offset
    by_cases hp : u.type_val = 1
    · simp only [AosTransferFrameBuilder.scan_loop, if_pos hp, List.map_cons,
        scan_packet_offset, hp, beq_self_eq_true, if_pos]
      simp
    · have hpb : (u.type_val == 1) = false := by
        rw [beq_eq_false_iff_ne]
        exact hp
      rw [AosTransferFrameBuilder.scan_loop.eq_def]
      simp only [if_neg hp]
      rw [ih (offset + u.data.length)]
      simp only [List.map_cons, scan_packet_offset, hpb, Bool.false_eq_true, if_false]
      rcases hscan : scan_packet_offset (rest.map fun u => (u.type_val == 1, u.data.length))
        with _ | o
      · rw [hscan]
        rfl
      · rw [hscan, Option.map_some']
        have harith : offset + u.data.length + o = offset + (o + u.data.length) := by omega
        dsimp only
        rw [harith]

/-- C7 (amended): the pointer the builders write is — AOS M_PDU: the idle
value 0x7FE only when marked idle with vc_id ≠ 63, otherwise the in-order
scan offset of the first packet-start unit relative to the first payload
unit (the security header length is not added), capped to the no-packet
value 0x7FF when it reaches 0x7FF or when no unit is flagged; TM: the idle
value when marked idle, the security-header length (capped the same way)
when the FIRST payload unit itself is flagged as packet start, and the
no-packet value otherwise — later packet-start units are never scanned. -/
theorem builder_first_header_pointer_characterization :
    (∀ b : AosTransferFrameBuilder.State,
      AosTransferFrameBuilder.compute_mpdu_first_header_pointer b =
        if b.idle ∧ b.user_data_type = .M_PDU ∧ b.virtual_channel_id ≠ 0x3F then 0x7FE
        else
          match scan_packet_offset
              (b.payload_units.map fun u => (u.type_val == 1, u.data.length)) with
          | some o => if o ≥ 0x7FF then 0x7FF else o
          | none => 0x7FF) ∧
    (∀ b : TmTransferFrameBuilder.State,
      TmTransferFrameBuilder.compute_first_header_pointer b =
        if b.idle then 0x7FE
        else
          match b.payload_units.head? with
          | some u =>
            if u.is_packet then
              if opt_len b.security_header ≥ 0x7FF then 0x7FF else opt_len b.security_header
            else 0x7FF
          | none => 0x7FF) := by
  constructor
  · intro b
    rw [AosTransferFrameBuilder.compute_mpdu_first_header_pointer]
    have hscan := aos_scan_loop_eq b.payload_units 0
    simp only [Nat.zero_add] at hscan
    by_cases h1 : b.idle ∧ b.user_data_type = .M_PDU
    · rw [if_pos h1]
      by_cases h2 : b.virtual_channel_id ≠ 0x3F
      · rw [if_pos h2, if_pos ⟨h1.1, h1.2, h2⟩]
      · rw [if_neg h2, if_neg (by intro hc; exact h2 hc.2.2), hscan]
    · rw [if_neg h1, if_neg (by intro hc; exact h1 ⟨hc.1, hc.2.1⟩), hscan]
  · intro b
    rw [TmTransferFrameBuilder.compute_first_header_pointer]
    by_cases hi : b.idle
    · rw [if_pos hi, if_pos hi]
    · rw [if_neg hi, if_neg hi]
      cases b.payload_units with
      | nil => rfl
      | cons u rest => rfl

/-! ## ChannelEncoder / ChannelDecoder (src/ccsds_tmtc_py/coding/channel_encoder.py,
src/ccsds_tmtc_py/coding/channel_decoder.py)

The stage-function type is kept abstract: encoder stages are
`(original_frame, bytes_so_far) -> bytes` over an arbitrary frame type,
decoder stages are `bytes -> bytes`, and the terminal frame decoder is
`bytes -> frame | error`. -/

/-- State of `ChannelEncoder` over a frame type `β`. -/
structure ChannelEncoder (β : Type) where
  frame_copy : Bool
  sequential_encoders : List (β → List Nat → List Nat)
  configured : Bool

namespace ChannelEncoder

/-- `ChannelEncoder.add_encoding_function`: a state error once configured,
otherwise appends the stage. -/
def add_encoding_function {β : Type} (enc : ChannelEncoder β)
    (func : β → List Nat → List Nat) : Except PyError (ChannelEncoder β) :=
  if enc.configured then
    .error (.illegalState "Channel encoder already configured")
  else
    .ok { enc with sequential_encoders := enc.sequential_encoders ++ [func] }

/-- `ChannelEncoder.configure`: seals the chain. -/
def configure {β : Type} (enc : ChannelEncoder β) : ChannelEncoder β :=
  { enc with configured := true }

/-- `ChannelEncoder.apply`: a state error before `configure()`, otherwise
the stages fold in configured order over the frame's bytes (a defensive
copy when `frame_copy` is set; `get_frame` / `get_frame_copy` are passed
as accessor functions of the abstract frame type). -/
def apply {β : Type} (enc : ChannelEncoder β) (transfer_frame : β)
    (get_frame get_frame_copy : β → List Nat) : Except PyError (List Nat) :=
  if !enc.configured then
    .error (.illegalState "Channel encoder not configured yet")
  else
    .ok (enc.sequential_encoders.foldl (fun to_encode func => func transfer_frame to_encode)
      (if enc.frame_copy then get_frame_copy transfer_frame else get_frame transfer_frame))

end ChannelEncoder

/-- State of `ChannelDecoder` over a decoded frame type `γ`. -/
structure ChannelDecoder (γ : Type) where
  frame_decoder : List Nat → Except PyError γ
  sequential_decoders : List (List Nat → List Nat)
  configured : Bool

namespace ChannelDecoder

/-- `ChannelDecoder.add_decoding_function`: a state error once configured,
otherwise appends the stage. -/
def add_decoding_function {γ : Type} (dec : ChannelDecoder γ)
    (func : List Nat → List Nat) : Except PyError (ChannelDecoder γ) :=
  if dec.configured then
    .error (.illegalState "Channel decoder already configured")
  else
    .ok { dec with sequential_decoders := dec.sequential_decoders ++ [func] }

/-- `ChannelDecoder.configure`: seals the chain. -/
def configure {γ : Type} (dec : ChannelDecoder γ) : ChannelDecoder γ :=
  { dec with configured := true }

/-- `ChannelDecoder.apply`: a state error before `configure()`, otherwise
the stages fold in configured order and the terminal frame decoder runs on
the result. -/
def apply {γ : Type} (dec : ChannelDecoder γ) (item : List Nat) : Except PyError γ :=
  if !dec.configured then
    .error (.illegalState "Channel decoder not configured yet")
  else
    dec.frame_decoder (dec.sequential_decoders.foldl (fun to_decode func => func to_decode) item)

end ChannelDecoder

/-- C9: for every encoder chain and every decoder chain, `configure()`
seals the chain, any further `add_encoding_function` /
`add_decoding_function` call on a sealed chain is a state error, and
calling `apply` before `configure()` is a state error. -/
theorem channel_chain_seal_state_errors :
    (∀ (β : Type) (enc : ChannelEncoder β), enc.configure.configured = true) ∧
    (∀ (β : Type) (enc : ChannelEncoder β) (func : β → List Nat → List Nat),
      enc.configured = true →
        enc.add_encoding_function func =
          .error (.illegalState "Channel encoder already configured")) ∧
    (∀ (β : Type) (enc : ChannelEncoder β) (frame : β) (gf gfc : β → List Nat),
      enc.configured = false →
        enc.apply frame gf gfc =
          .error (.illegalState "Channel encoder not configured yet")) ∧
    (∀ (γ : Type) (dec : ChannelDecoder γ), dec.configure.configured = true) ∧
    (∀ (γ : Type) (dec : ChannelDecoder γ) (func : List Nat → List Nat),
      dec.configured = true →
        dec.add_decoding_function func =
          .error (.illegalState "Channel decoder already configured")) ∧
    (∀ (γ : Type) (dec : ChannelDecoder γ) (item : List Nat),
      dec.configured = false →
        dec.apply item =
          .error (.illegalState "Channel decoder not configured yet")) := by
  refine ⟨fun β enc => rfl, fun β enc func hc => ?_, fun β enc frame gf gfc hc => ?_,
    fun γ dec => rfl, fun γ dec func hc => ?_, fun γ dec item hc => ?_⟩
  · rw [ChannelEncoder.add_encoding_function, if_pos hc]
  · rw [ChannelEncoder.apply, hc]
    rfl
  · rw [ChannelDecoder.add_decoding_function, if_pos hc]
  · rw [ChannelDecoder.apply, hc]
    rfl

/-- Witness for C9 at concrete chains: a fresh unconfigured encoder rejects
`apply`, and after `configure()` it rejects a further
`add_encoding_function`; same for a decoder. -/
theorem channel_chain_seal_state_errors_witness :
    (ChannelEncoder.apply (β := Unit) ⟨false, [], false⟩ () (fun _ => []) (fun _ => []) =
      .error (.illegalState "Channel encoder not configured yet")) ∧
    (ChannelEncoder.add_encoding_function (β := Unit)
        (ChannelEncoder.configure ⟨false, [], false⟩) (fun _ l => l) =
      .error (.illegalState "Channel encoder already configured")) ∧
    (ChannelDecoder.apply (γ := Unit) ⟨fun _ => .ok (), [], false⟩ [1, 2] =
      .error (.illegalState "Channel decoder not configured yet")) ∧
    (ChannelDecoder.add_decoding_function (γ := Unit)
        (ChannelDecoder.configure ⟨fun _ => .ok (), [], false⟩) (fun l => l) =
      .error (.illegalState "Channel decoder already configured")) := by
  have h := channel_chain_seal_state_errors
  exact ⟨h.2.2.1 Unit ⟨false, [], false⟩ () (fun _ => []) (fun _ => []) rfl,
    h.2.1 Unit (ChannelEncoder.configure ⟨false, [], false⟩) (fun _ l => l) rfl,
    h.2.2.2.2.2 Unit ⟨fun _ => .ok (), [], false⟩ [1, 2] rfl,
    h.2.2.2.2.1 Unit (ChannelDecoder.configure ⟨fun _ => .ok (), [], false⟩) (fun l => l) rfl⟩

end CcsdsTmtc
